import Mathlib

/-!
Verification of the green-box interactive edge-detection app.

The development shallowly embeds the two source files of the repository:

* `src/App.tsx` — the React component owning the pipeline parameters, the
  pasted source image, the paste / file-input handlers, the OpenCV pipeline
  run (`processImageWithOpenCV`) and the copy-to-clipboard export
  (`handleCopyImage`);
* `src/useOcvLoader.ts` — the OpenCV availability observer (initial check,
  poll interval, `onRuntimeInitialized` callback).

Machine state (React `useState` values plus the canvas ref) is modelled as an
explicit `AppState` record; the asynchronous image decode and the per-call
outcome of the external OpenCV operations are passed in as explicit
parameters (`DecodeOutcome`, and a `fail : Option Nat` naming the index of
the OpenCV call that throws, if any).  OpenCV mats are modelled at the level
the source manipulates them: dimensions and channel count.
-/

set_option linter.unusedVariables false

namespace GreenBox

/-- An OpenCV mat as the source uses it: `rows`/`cols` dimensions and a
channel count (`imread` yields RGBA = 4 channels, `cvtColor` to gray = 1). -/
structure Mat where
  rows : Nat
  cols : Nat
  channels : Nat
deriving DecidableEq

/-- What the canvas currently displays: nothing yet, the decoded source image
drawn by `ctx.drawImage`, or a processed mat written by `cv.imshow`. -/
inductive CanvasContent where
  | blank
  | drawn (url : String)
  | shown (m : Mat)
deriving DecidableEq

/-- The render-target canvas: its bitmap dimensions and current contents. -/
structure Canvas where
  width : Nat
  height : Nat
  content : CanvasContent
deriving DecidableEq

/-- The component state of `App.tsx`: the `useState` values
(`pastedImage`, the four pipeline parameters, `copyStatus`), the canvas ref
(`canvasRef.current`, `none` when no canvas is mounted), the `cvReady` flag
returned by `useOcvLoader`, and whether `window.cv` is present. -/
structure AppState where
  pastedImage : Option String
  blurKernelSize : Nat
  cannyThreshold1 : Nat
  cannyThreshold2 : Nat
  scaleFactor : ℚ
  copyStatus : String
  canvas : Option Canvas
  cvReady : Bool
  windowCv : Bool
deriving DecidableEq

/-- Console output produced by the handlers (`console.warn`, `console.error`,
`console.log`). -/
inductive LogEntry where
  | warn (msg : String)
  | error (msg : String)
  | log (msg : String)
deriving DecidableEq

/-- Outcome of the asynchronous `new Image()` decode: `ok` delivers the
natural width and height (the `img.onload` path), `err` is the
`img.onerror` path. -/
inductive DecodeOutcome where
  | ok (width height : Nat)
  | err
deriving DecidableEq

/-- JavaScript `Math.round` on the nonnegative values arising here:
round half up, i.e. the floor of `q + 1/2`, clamped to `Nat`. -/
def jsRound (q : ℚ) : Nat :=
  (round q).toNat

/-- Result of one OpenCV pipeline run (the body of the
`requestAnimationFrame` callback in `processImageWithOpenCV`):
the `Size` passed to the first (down-)resize when that call was made, the
kernel side passed to `GaussianBlur` when that call was made, the mat
written to the canvas by `imshow` when it succeeded, and which engine
buffers were allocated and explicitly `delete()`d during the run. -/
structure RunResult where
  scaledSize : Option (Nat × Nat)
  kernelUsed : Option Nat
  shown : Option Mat
  allocated : List String
  released : List String
deriving DecidableEq

/-- The `try` block of `processImageWithOpenCV`, embedded call by call.
`fail = some i` means the `i`-th OpenCV call throws (0 = `imread`,
1 = first `resize`, 2 = `cvtColor`, 3 = `GaussianBlur`, 4 = `Canny`,
5 = `bitwise_not`, 6 = second `resize`, 7 = `imshow`); a throw jumps to the
`catch`, skipping everything after it — including the `delete()` calls. -/
def ocvRun (w h : Nat) (sc : ℚ) (k t1 t2 : Nat) (fail : Option Nat) : RunResult :=
  -- const src = cv.imread(canvas)
  if fail = some 0 then
    { scaledSize := none, kernelUsed := none, shown := none,
      allocated := [], released := [] }
  else
  let src : Mat := { rows := h, cols := w, channels := 4 }
  let scaledWidth := jsRound ((w : ℚ) * sc)
  let scaledHeight := jsRound ((h : ℚ) * sc)
  -- const scaled = new cv.Mat(); cv.resize(src, scaled, Size(scaledWidth, scaledHeight), 0, 0, INTER_LINEAR)
  if fail = some 1 then
    { scaledSize := some (scaledWidth, scaledHeight), kernelUsed := none, shown := none,
      allocated := ["src", "scaled"], released := [] }
  else
  let scaled1 : Mat := { rows := scaledHeight, cols := scaledWidth, channels := src.channels }
  -- cv.cvtColor(scaled, scaled, COLOR_RGBA2GRAY, 0)
  if fail = some 2 then
    { scaledSize := some (scaledWidth, scaledHeight), kernelUsed := none, shown := none,
      allocated := ["src", "scaled"], released := [] }
  else
  let scaled2 : Mat := { scaled1 with channels := 1 }
  -- const kernelSize = blurKernelSize % 2 === 0 ? blurKernelSize + 1 : blurKernelSize
  let kernelSize := if k % 2 == 0 then k + 1 else k
  -- cv.GaussianBlur(scaled, scaled, Size(kernelSize, kernelSize), 0)
  if fail = some 3 then
    { scaledSize := some (scaledWidth, scaledHeight), kernelUsed := some kernelSize, shown := none,
      allocated := ["src", "scaled"], released := [] }
  else
  let scaled3 := scaled2
  -- cv.Canny(scaled, scaled, cannyThreshold1, cannyThreshold2, 3, false)
  if fail = some 4 then
    { scaledSize := some (scaledWidth, scaledHeight), kernelUsed := some kernelSize, shown := none,
      allocated := ["src", "scaled"], released := [] }
  else
  let scaled4 := scaled3
  -- cv.bitwise_not(scaled, scaled)
  if fail = some 5 then
    { scaledSize := some (scaledWidth, scaledHeight), kernelUsed := some kernelSize, shown := none,
      allocated := ["src", "scaled"], released := [] }
  else
  let scaled5 := scaled4
  -- const result = new cv.Mat(); cv.resize(scaled, result, Size(src.cols, src.rows), 0, 0, INTER_LINEAR)
  if fail = some 6 then
    { scaledSize := some (scaledWidth, scaledHeight), kernelUsed := some kernelSize, shown := none,
      allocated := ["src", "scaled", "result"], released := [] }
  else
  let result : Mat := { rows := src.rows, cols := src.cols, channels := scaled5.channels }
  -- cv.imshow(canvas, result)
  if fail = some 7 then
    { scaledSize := some (scaledWidth, scaledHeight), kernelUsed := some kernelSize, shown := none,
      allocated := ["src", "scaled", "result"], released := [] }
  else
  -- src.delete(); scaled.delete(); result.delete()
  { scaledSize := some (scaledWidth, scaledHeight), kernelUsed := some kernelSize,
    shown := some result,
    allocated := ["src", "scaled", "result"], released := ["src", "scaled", "result"] }

/-- `processImageWithOpenCV` from `App.tsx`.  The guard rejects the call when
`cvReady` is false, `window.cv` is absent, or no canvas is mounted, logging a
warning.  Otherwise the `new Image()` decode either fails (`onerror`: log the
error, touch nothing) or succeeds (`onload`: size the canvas to the image,
draw it, then run the OpenCV pipeline in the deferred callback; on pipeline
success `imshow` overwrites the canvas with the result, on a pipeline throw
the `catch` logs and the canvas keeps the drawn source image). -/
def processImageWithOpenCV (s : AppState) (url : String) (decode : DecodeOutcome)
    (fail : Option Nat) : AppState × List LogEntry :=
  if !s.cvReady || !s.windowCv || s.canvas.isNone then
    (s, [LogEntry.warn "OpenCV not ready or canvas not available yet."])
  else
    match decode with
    | DecodeOutcome.err => (s, [LogEntry.error "Image loading error:"])
    | DecodeOutcome.ok w h =>
      match (ocvRun w h s.scaleFactor s.blurKernelSize s.cannyThreshold1 s.cannyThreshold2
          fail).shown with
      | some m =>
        ({ s with canvas := some { width := m.cols, height := m.rows,
                                   content := CanvasContent.shown m } }, [])
      | none =>
        ({ s with canvas := some { width := w, height := h,
                                   content := CanvasContent.drawn url } },
         [LogEntry.error "OpenCV processing error:"])

/-- Accepting an input (the `reader.onload` of an image paste or file
selection, or a matching pasted text URL): the handler first stores the new
value with `setPastedImage` and then invokes `processImageWithOpenCV` on it. -/
def acceptInput (s : AppState) (url : String) (decode : DecodeOutcome)
    (fail : Option Nat) : AppState × List LogEntry :=
  processImageWithOpenCV { s with pastedImage := some url } url decode fail

/-- Does the list start with the given pattern list? -/
def listStartsWith {α : Type} [BEq α] : List α → List α → Bool
  | _, [] => true
  | [], _ :: _ => false
  | c :: cs, p :: ps => (c == p) && listStartsWith cs ps

/-- Does the list end with the given pattern list? -/
def listEndsWith {α : Type} [BEq α] (s p : List α) : Bool :=
  listStartsWith s.reverse p.reverse

/-- Does some suffix of the list start with the pattern list?  This is
JavaScript `s.indexOf(pat) !== -1`. -/
def listContainsSub {α : Type} [BEq α] (pat : List α) : List α → Bool
  | [] => listStartsWith [] pat
  | c :: cs => listStartsWith (c :: cs) pat || listContainsSub pat cs

/-- Substring containment, modelling JavaScript
`s.indexOf(pat) !== -1` as used on the item type strings. -/
def strContains (s pat : String) : Bool :=
  listContainsSub pat.data s.data

/-- JavaScript `s.startsWith(p)` (case sensitive). -/
def strStartsWith (s p : String) : Bool :=
  listStartsWith s.data p.data

/-- The code point of a character with ASCII upper case folded to lower
case; used to model the case-insensitive `i` flag of the extension regex. -/
def lowerCode (c : Char) : Nat :=
  if 65 ≤ c.toNat && c.toNat ≤ 90 then c.toNat + 32 else c.toNat

/-- Case-folded code points of a string. -/
def lowerCodes (s : String) : List Nat :=
  s.data.map lowerCode

/-- The whitespace characters stripped by `text.trim()` on the inputs
arising here. -/
def isSpaceChar (c : Char) : Bool :=
  c == ' ' || c == '\t' || c == '\n' || c == '\r'

/-- Drop leading whitespace characters. -/
def dropLeadingSpaces : List Char → List Char
  | [] => []
  | c :: cs => if isSpaceChar c then dropLeadingSpaces cs else c :: cs

/-- JavaScript `text.trim()`: strip whitespace from both ends. -/
def strTrim (s : String) : String :=
  String.mk ((dropLeadingSpaces ((dropLeadingSpaces s.data).reverse)).reverse)

/-- One `DataTransferItem` of the clipboard paste event: its MIME `type`
string, the file returned by `getAsFile()` (modelled as the data URL the
`FileReader` would produce from it; `none` when `getAsFile()` returns null),
and the text delivered to the `getAsString` callback (for string items). -/
structure DataTransferItem where
  ty : String
  asFile : Option String
  asString : Option String
deriving DecidableEq

/-- The image-file extensions of the regex
`/\.(jpg|jpeg|png|gif|webp|bmp)$/i` in `handlePaste`. -/
def imageExtensions : List String :=
  ["jpg", "jpeg", "png", "gif", "webp", "bmp"]

/-- The image-URL heuristic applied to pasted text: the case-insensitive
extension-suffix regex, or one of the three scheme tests
(`http://`, `https://`, `data:image/`). -/
def looksLikeImageUrl (t : String) : Bool :=
  imageExtensions.any (fun e => listEndsWith (lowerCodes t) (lowerCodes ("." ++ e)))
    || strStartsWith t "http://"
    || strStartsWith t "https://"
    || strStartsWith t "data:image/"

/-- What the paste handler decides to do with the clipboard contents. -/
inductive PasteAction where
  | nothing
  | decodeImage (file : String)
  | useText (t : String)
  | rejectText (t : String)
deriving DecidableEq

/-- Outcome of `handlePaste`: the chosen action, plus whether any item had
`getAsString` invoked on it (i.e. whether the text pass examined an item). -/
structure PasteOutcome where
  action : PasteAction
  textRead : Bool
deriving DecidableEq

/-- The first loop of `handlePaste`: scan the items in order; for an item
whose type contains `image`, call `getAsFile()`; return the blob of the
first such item whose blob is non-null. -/
def firstImageFile (items : List DataTransferItem) : Option String :=
  items.findSome? (fun it => if strContains it.ty "image" then it.asFile else none)

/-- The second loop of `handlePaste`: the first item whose type is exactly
`text/plain` (the handler returns right after registering its callback). -/
def firstTextItem (items : List DataTransferItem) : Option DataTransferItem :=
  items.find? (fun it => it.ty == "text/plain")

/-- `handlePaste` from `App.tsx` (`items = none` models a null
`clipboardData.items`): the image pass runs first and returns on the first
image item with a non-null blob; only if it finds none does the text pass
run `getAsString` on the first `text/plain` item and apply the image-URL
heuristic to the trimmed text. -/
def handlePaste (items : Option (List DataTransferItem)) : PasteOutcome :=
  match items with
  | none => { action := PasteAction.nothing, textRead := false }
  | some its =>
    match firstImageFile its with
    | some f => { action := PasteAction.decodeImage f, textRead := false }
    | none =>
      match firstTextItem its with
      | none => { action := PasteAction.nothing, textRead := false }
      | some it =>
        match it.asString with
        | none => { action := PasteAction.nothing, textRead := true }
        | some text =>
          let t := strTrim text
          if looksLikeImageUrl t then { action := PasteAction.useText t, textRead := true }
          else { action := PasteAction.rejectText t, textRead := true }

/-- Applying the chosen paste action to the component state: an accepted
image or text input stores the value and starts a pipeline run
(`acceptInput`); rejected text is only logged; the returned `Bool` records
whether a run was triggered. -/
def applyPaste (s : AppState) (o : PasteOutcome) (decode : DecodeOutcome)
    (fail : Option Nat) : AppState × Bool × List LogEntry :=
  match o.action with
  | PasteAction.nothing => (s, false, [])
  | PasteAction.decodeImage f =>
    let r := acceptInput s f decode fail
    (r.1, true, r.2)
  | PasteAction.useText t =>
    let r := acceptInput s t decode fail
    (r.1, true, r.2)
  | PasteAction.rejectText _ =>
    (s, false, [LogEntry.log "Pasted text is not an image URL:"])

/-- Pasting a single plain-text value: the whole handler applied to a
clipboard holding exactly one `text/plain` item carrying `text`. -/
def pasteText (s : AppState) (text : String) (decode : DecodeOutcome)
    (fail : Option Nat) : AppState × Bool × List LogEntry :=
  applyPaste s (handlePaste (some [{ ty := "text/plain", asFile := none, asString := some text }]))
    decode fail

/-- An encoded blob produced by `canvas.toBlob`. -/
structure Blob where
  width : Nat
  height : Nat
deriving DecidableEq

/-- `canvas.toBlob` as the HTML canvas contract specifies it for the cases
reachable here: a bitmap with zero width or height makes the callback
receive null; otherwise a PNG blob of the canvas contents. -/
def toBlobResult (c : Canvas) : Option Blob :=
  if c.width = 0 || c.height = 0 then none else some { width := c.width, height := c.height }

/-- `handleCopyImage` from `App.tsx`.  With no canvas it returns at once.
`toBlobThrows` models `canvas.toBlob` itself throwing synchronously (the
only way the `catch` fires, setting the failure status).  Otherwise the
callback gets the blob: null (empty canvas) does nothing; a real blob is
written to the clipboard — `clipboardOk = false` models a rejected
`navigator.clipboard.write`, whose rejection happens inside the `async`
callback after the `try` has already exited, so no status is set. -/
def handleCopyImage (s : AppState) (toBlobThrows : Bool) (clipboardOk : Bool) : AppState :=
  match s.canvas with
  | none => s
  | some c =>
    if toBlobThrows then { s with copyStatus := "❌ Failed to copy" }
    else
      match toBlobResult c with
      | none => s
      | some _ =>
        if clipboardOk then { s with copyStatus := "✅ Copied!" }
        else s

/-- State of `useOcvLoader`: the `cvReady` React state, whether the poll
`setInterval` is still active, and whether the environment fact
`window.cv && window.cv.Mat` holds yet. -/
structure LoaderState where
  cvReady : Bool
  intervalActive : Bool
  cvLoaded : Bool
deriving DecidableEq

/-- Events acting on the loader: the OpenCV script finishing loading
(environment), one tick of the 100 ms poll interval, and the
`onRuntimeInitialized` callback (`checkOpenCV`). -/
inductive LoaderEvent where
  | cvLoads
  | pollTick
  | runtimeInitialized
deriving DecidableEq

/-- One step of `useOcvLoader`: a poll tick (only meaningful while the
interval is active) sets `cvReady` and clears the interval when it sees the
engine loaded; the `checkOpenCV` callback sets `cvReady` when the engine is
loaded but does NOT clear the interval; the engine loading is an
environment transition. -/
def loaderStep (s : LoaderState) (e : LoaderEvent) : LoaderState :=
  match e with
  | LoaderEvent.cvLoads => { s with cvLoaded := true }
  | LoaderEvent.pollTick =>
    if s.intervalActive then
      if s.cvLoaded then { s with cvReady := true, intervalActive := false } else s
    else s
  | LoaderEvent.runtimeInitialized =>
    if s.cvLoaded then { s with cvReady := true } else s

/-- The mount-time effect of `useOcvLoader`: if `window.cv && window.cv.Mat`
already holds, set `cvReady` and return without starting the interval;
otherwise start polling with `cvReady` false. -/
def loaderInit (cvLoadedAtMount : Bool) : LoaderState :=
  if cvLoadedAtMount then { cvReady := true, intervalActive := false, cvLoaded := true }
  else { cvReady := false, intervalActive := true, cvLoaded := false }

/-- Running the loader from an initial state through a sequence of events. -/
def runLoader (init : LoaderState) (evs : List LoaderEvent) : LoaderState :=
  evs.foldl loaderStep init

/-! ## Helper lemmas -/

/-- A pipeline run never touches `pastedImage`. -/
theorem processImage_fst_pastedImage (s : AppState) (url : String) (decode : DecodeOutcome)
    (fail : Option Nat) :
    ((processImageWithOpenCV s url decode fail).1).pastedImage = s.pastedImage := by
  unfold processImageWithOpenCV
  split
  · rfl
  · split
    · rfl
    · split <;> rfl

/-- After accepting an input, `pastedImage` holds the accepted value no
matter how the subsequent run goes. -/
theorem acceptInput_fst_pastedImage (s : AppState) (url : String) (decode : DecodeOutcome)
    (fail : Option Nat) :
    ((acceptInput s url decode fail).1).pastedImage = some url := by
  unfold acceptInput
  rw [processImage_fst_pastedImage]

/-! ## Claims -/

/-- Claim C2: whenever the engine is not ready (the `cvReady` flag is false
or `window.cv` is absent) or no canvas render target exists, a call to
`processImageWithOpenCV` is a no-op: the state is returned unchanged (so no
canvas mutation occurs) and the only output is the warning log. -/
theorem c2_not_ready_noop (s : AppState) (url : String) (decode : DecodeOutcome)
    (fail : Option Nat)
    (h : s.cvReady = false ∨ s.windowCv = false ∨ s.canvas = none) :
    processImageWithOpenCV s url decode fail
      = (s, [LogEntry.warn "OpenCV not ready or canvas not available yet."]) := by
  unfold processImageWithOpenCV
  have hg : (!s.cvReady || !s.windowCv || s.canvas.isNone) = true := by
    rcases h with h | h | h <;> simp [h]
  rw [if_pos hg]

/-- Witness for C2 at a concrete not-ready state. -/
theorem c2_witness :
    processImageWithOpenCV
        { pastedImage := none, blurKernelSize := 7, cannyThreshold1 := 50,
          cannyThreshold2 := 100, scaleFactor := 1, copyStatus := "",
          canvas := none, cvReady := false, windowCv := false }
        "img.png" (DecodeOutcome.ok 2 2) none
      = ({ pastedImage := none, blurKernelSize := 7, cannyThreshold1 := 50,
           cannyThreshold2 := 100, scaleFactor := 1, copyStatus := "",
           canvas := none, cvReady := false, windowCv := false },
         [LogEntry.warn "OpenCV not ready or canvas not available yet."]) :=
  c2_not_ready_noop _ "img.png" (DecodeOutcome.ok 2 2) none (Or.inl rfl)

/-- Claim C3: for every `blurKernelSize` in `[1, 21]`, the kernel side the
run passes to `GaussianBlur` equals the size itself when it is odd and
the size plus one when it is even; every kernel the blur operation ever
receives is odd. -/
theorem c3_effective_kernel (w h t1 t2 k : Nat) (sc : ℚ)
    (hk1 : 1 ≤ k) (hk2 : k ≤ 21) :
    (ocvRun w h sc k t1 t2 none).kernelUsed
      = some (if k % 2 = 1 then k else k + 1)
    ∧ ∀ j, (ocvRun w h sc k t1 t2 none).kernelUsed = some j → j % 2 = 1 := by
  have hused : (ocvRun w h sc k t1 t2 none).kernelUsed
      = some (if k % 2 == 0 then k + 1 else k) := rfl
  constructor
  · rw [hused]
    rcases Nat.mod_two_eq_zero_or_one k with hp | hp <;> simp [hp]
  · intro j hj
    rw [hused] at hj
    rcases Nat.mod_two_eq_zero_or_one k with hp | hp <;> simp [hp] at hj <;> omega

/-- Witness for C3 at the even stored size 4: the blur receives 5. -/
theorem c3_witness :
    (ocvRun 2 2 1 4 50 100 none).kernelUsed = some (if 4 % 2 = 1 then 4 else 4 + 1) :=
  (c3_effective_kernel 2 2 50 100 4 1 (by decide) (by decide)).1

/-- Claim C6: for every source image of width `w` and height `h` and every
`scaleFactor` in `(0, 1]`, the run first resizes the working buffer to
`round(w * scaleFactor) × round(h * scaleFactor)` and finally resizes back
to `(src.cols, src.rows)`, so the mat written to the canvas by `imshow` has
exactly the original dimensions `w × h`. -/
theorem c6_resize_roundtrip (w h k t1 t2 : Nat) (sc : ℚ)
    (h0 : 0 < sc) (h1 : sc ≤ 1) :
    (ocvRun w h sc k t1 t2 none).scaledSize
      = some (jsRound ((w : ℚ) * sc), jsRound ((h : ℚ) * sc))
    ∧ Option.map Mat.cols (ocvRun w h sc k t1 t2 none).shown = some w
    ∧ Option.map Mat.rows (ocvRun w h sc k t1 t2 none).shown = some h :=
  ⟨rfl, rfl, rfl⟩

/-- Witness for C6 at a concrete 4 × 3 image with scale factor 1. -/
theorem c6_witness :
    Option.map Mat.cols (ocvRun 4 3 1 5 50 100 none).shown = some 4
    ∧ Option.map Mat.rows (ocvRun 4 3 1 5 50 100 none).shown = some 3 :=
  ⟨(c6_resize_roundtrip 4 3 5 50 100 1 one_pos le_rfl).2.1,
   (c6_resize_roundtrip 4 3 5 50 100 1 one_pos le_rfl).2.2⟩

/-- Counterexample to claim C8: in the run where the `Canny` call throws,
the `src` and `scaled` buffers have been allocated but the `catch` skips the
`delete()` calls, so nothing is released — buffers are not released in runs
where a processing step fails. -/
theorem c8_counterexample :
    (ocvRun 2 2 1 3 50 100 (some 4)).allocated = ["src", "scaled"]
    ∧ (ocvRun 2 2 1 3 50 100 (some 4)).released = [] :=
  ⟨rfl, rfl⟩

/-- Claim C8 as amended: in a run where no OpenCV call throws, every
intermediate buffer created by the run (`src`, `scaled`, `result`) is
released at the end; but in a run where any of the eight calls throws,
no buffer at all is released. -/
theorem c8_amended_release (w h k t1 t2 : Nat) (sc : ℚ) :
    ((ocvRun w h sc k t1 t2 none).released = (ocvRun w h sc k t1 t2 none).allocated
      ∧ (ocvRun w h sc k t1 t2 none).released = ["src", "scaled", "result"])
    ∧ ∀ i, i < 8 → (ocvRun w h sc k t1 t2 (some i)).released = [] := by
  refine ⟨⟨rfl, rfl⟩, ?_⟩
  intro i hi
  interval_cases i <;> rfl

/-- Witness for the amended C8 at a failing `cvtColor` call. -/
theorem c8_witness : (ocvRun 2 3 1 5 50 100 (some 2)).released = [] :=
  (c8_amended_release 2 3 5 50 100 1).2 2 (by decide)

/-- Claim C10: a pipeline run — whether rejected by the guard, failed in
decode, failed in a processing step, or completed — leaves the four
pipeline parameters, the `pastedImage` reference, the copy status, the
readiness flag and the `window.cv` presence unchanged; only the canvas can
differ in the resulting state. -/
theorem c10_run_frame (s : AppState) (url : String) (decode : DecodeOutcome)
    (fail : Option Nat) :
    ((processImageWithOpenCV s url decode fail).1).pastedImage = s.pastedImage
    ∧ ((processImageWithOpenCV s url decode fail).1).blurKernelSize = s.blurKernelSize
    ∧ ((processImageWithOpenCV s url decode fail).1).cannyThreshold1 = s.cannyThreshold1
    ∧ ((processImageWithOpenCV s url decode fail).1).cannyThreshold2 = s.cannyThreshold2
    ∧ ((processImageWithOpenCV s url decode fail).1).scaleFactor = s.scaleFactor
    ∧ ((processImageWithOpenCV s url decode fail).1).copyStatus = s.copyStatus
    ∧ ((processImageWithOpenCV s url decode fail).1).cvReady = s.cvReady
    ∧ ((processImageWithOpenCV s url decode fail).1).windowCv = s.windowCv := by
  unfold processImageWithOpenCV
  split
  · exact ⟨rfl, rfl, rfl, rfl, rfl, rfl, rfl, rfl⟩
  · split
    · exact ⟨rfl, rfl, rfl, rfl, rfl, rfl, rfl, rfl⟩
    · split <;> exact ⟨rfl, rfl, rfl, rfl, rfl, rfl, rfl, rfl⟩

/-- Claim C1: for every pasted plain-text value, the trimmed text is stored
in `pastedImage` and a pipeline run is triggered exactly when the image-URL
heuristic accepts it (extension suffix or `http://` / `https://` /
`data:image/` scheme); otherwise the handler only logs, the state is
unchanged and no run is triggered.  In particular `notaurl` is rejected and
`https://example.com/a.png` is accepted. -/
theorem c1_text_paste_heuristic (s : AppState) (text : String) (decode : DecodeOutcome)
    (fail : Option Nat) :
    (pasteText s text decode fail).2.1 = looksLikeImageUrl (strTrim text)
    ∧ (pasteText s text decode fail).1
        = (if looksLikeImageUrl (strTrim text) then (acceptInput s (strTrim text) decode fail).1
           else s)
    ∧ ((pasteText s text decode fail).1).pastedImage
        = (if looksLikeImageUrl (strTrim text) then some (strTrim text) else s.pastedImage)
    ∧ (pasteText s text decode fail).2.2
        = (if looksLikeImageUrl (strTrim text) then (acceptInput s (strTrim text) decode fail).2
           else [LogEntry.log "Pasted text is not an image URL:"])
    ∧ looksLikeImageUrl "notaurl" = false
    ∧ looksLikeImageUrl "https://example.com/a.png" = true := by
  have hp : handlePaste (some [{ ty := "text/plain", asFile := none, asString := some text }])
      = (if looksLikeImageUrl (strTrim text) then
           { action := PasteAction.useText (strTrim text), textRead := true }
         else { action := PasteAction.rejectText (strTrim text), textRead := true }) := rfl
  by_cases hb : looksLikeImageUrl (strTrim text) = true
  · have hq : pasteText s text decode fail
        = ((acceptInput s (strTrim text) decode fail).1, true,
           (acceptInput s (strTrim text) decode fail).2) := by
      unfold pasteText
      rw [hp, if_pos hb]
      rfl
    rw [hq]
    refine ⟨by rw [hb], by rw [if_pos hb], ?_, by rw [if_pos hb], by decide, by decide⟩
    rw [if_pos hb]
    exact acceptInput_fst_pastedImage s (strTrim text) decode fail
  · have hb0 : looksLikeImageUrl (strTrim text) = false := by
      revert hb
      cases looksLikeImageUrl (strTrim text) <;> simp
    have hq : pasteText s text decode fail
        = (s, false, [LogEntry.log "Pasted text is not an image URL:"]) := by
      unfold pasteText
      rw [hp, if_neg (by rw [hb0]; exact Bool.false_ne_true)]
      rfl
    rw [hq]
    exact ⟨by rw [hb0], by rw [if_neg (by rw [hb0]; exact Bool.false_ne_true)],
      by rw [if_neg (by rw [hb0]; exact Bool.false_ne_true)],
      by rw [if_neg (by rw [hb0]; exact Bool.false_ne_true)], by decide, by decide⟩

/-- Counterexample to claim C4: the handler stores the accepted value in
`pastedImage` before starting the decode, so after a failed decode the new
(broken) value is current and the previously live value does not remain. -/
theorem c4_counterexample :
    ((acceptInput
        { pastedImage := some "old.png", blurKernelSize := 7, cannyThreshold1 := 50,
          cannyThreshold2 := 100, scaleFactor := 1, copyStatus := "",
          canvas := some { width := 2, height := 2, content := CanvasContent.blank },
          cvReady := true, windowCv := true }
        "https://example.com/broken.png" DecodeOutcome.err none).1).pastedImage
      = some "https://example.com/broken.png"
    ∧ ((acceptInput
        { pastedImage := some "old.png", blurKernelSize := 7, cannyThreshold1 := 50,
          cannyThreshold2 := 100, scaleFactor := 1, copyStatus := "",
          canvas := some { width := 2, height := 2, content := CanvasContent.blank },
          cvReady := true, windowCv := true }
        "https://example.com/broken.png" DecodeOutcome.err none).1).pastedImage
      ≠ some "old.png" := by
  exact ⟨rfl, by decide⟩

/-- Claim C4 as amended: on a failed decode the `img.onerror` handler logs
the decode error and changes no state — the run returns the state
completely unchanged and its only output is the `Image loading error:` log
(when the guard had rejected the call, only the warning is logged and no
decode was ever attempted); however, the accepted value was already stored
in `pastedImage` before the decode was attempted, so it (and not the
previously live value) is the current `pastedImage` after the failure. -/
theorem c4_amended_decode_error (s : AppState) (url : String) (fail : Option Nat) :
    processImageWithOpenCV s url DecodeOutcome.err fail
      = (s, if !s.cvReady || !s.windowCv || s.canvas.isNone
            then [LogEntry.warn "OpenCV not ready or canvas not available yet."]
            else [LogEntry.error "Image loading error:"])
    ∧ ((acceptInput s url DecodeOutcome.err fail).1).pastedImage = some url := by
  have hrun : ∀ s1 : AppState, processImageWithOpenCV s1 url DecodeOutcome.err fail
      = (s1, if !s1.cvReady || !s1.windowCv || s1.canvas.isNone
             then [LogEntry.warn "OpenCV not ready or canvas not available yet."]
             else [LogEntry.error "Image loading error:"]) := by
    intro s1
    unfold processImageWithOpenCV
    split_ifs with hg
    · rfl
    · rfl
  constructor
  · exact hrun s
  · unfold acceptInput
    rw [hrun]

/-- Counterexample to claim C5: copying with an empty (0 × 0) canvas, and
with no canvas at all, leaves the copy status untouched — no failure status
is ever reported to the user in these cases. -/
theorem c5_counterexample :
    (handleCopyImage
        { pastedImage := some "x.png", blurKernelSize := 7, cannyThreshold1 := 50,
          cannyThreshold2 := 100, scaleFactor := 1, copyStatus := "",
          canvas := some { width := 0, height := 0, content := CanvasContent.blank },
          cvReady := true, windowCv := true } false true).copyStatus = ""
    ∧ (handleCopyImage
        { pastedImage := some "x.png", blurKernelSize := 7, cannyThreshold1 := 50,
          cannyThreshold2 := 100, scaleFactor := 1, copyStatus := "",
          canvas := some { width := 0, height := 0, content := CanvasContent.blank },
          cvReady := true, windowCv := true } false true).copyStatus ≠ "❌ Failed to copy"
    ∧ (handleCopyImage
        { pastedImage := none, blurKernelSize := 7, cannyThreshold1 := 50,
          cannyThreshold2 := 100, scaleFactor := 1, copyStatus := "",
          canvas := none, cvReady := true, windowCv := true } false true).copyStatus = "" := by
  exact ⟨rfl, by decide, rfl⟩

/-- Claim C5 as amended: a copy invoked with no canvas returns immediately,
and one invoked with an empty canvas receives a null blob whose callback
does nothing; in both cases the state — in particular the copy status — is
completely unchanged (so no success status is newly reported) and nothing
is thrown.  A failure status appears only when `toBlob` itself throws. -/
theorem c5_amended_empty_copy (s : AppState) (clipboardOk : Bool)
    (h : s.canvas = none ∨ ∃ c, s.canvas = some c ∧ (c.width = 0 ∨ c.height = 0)) :
    handleCopyImage s false clipboardOk = s := by
  rcases h with hnone | ⟨c, hc, hwh⟩
  · unfold handleCopyImage
    rw [hnone]
  · have hblob : toBlobResult c = none := by
      unfold toBlobResult
      rcases hwh with h0 | h0 <;> simp [h0]
    unfold handleCopyImage
    rw [hc]
    simp only [Bool.false_eq_true, if_false, hblob]

/-- Witness for the amended C5 at a concrete empty canvas. -/
theorem c5_witness :
    handleCopyImage
        { pastedImage := some "y.png", blurKernelSize := 7, cannyThreshold1 := 50,
          cannyThreshold2 := 100, scaleFactor := 1, copyStatus := "",
          canvas := some { width := 0, height := 0, content := CanvasContent.blank },
          cvReady := true, windowCv := true } false true
      = { pastedImage := some "y.png", blurKernelSize := 7, cannyThreshold1 := 50,
          cannyThreshold2 := 100, scaleFactor := 1, copyStatus := "",
          canvas := some { width := 0, height := 0, content := CanvasContent.blank },
          cvReady := true, windowCv := true } :=
  c5_amended_empty_copy _ true (Or.inr ⟨_, rfl, Or.inl rfl⟩)

/-- Counterexample to claim C7: starting not ready and polling, if the
engine loads and the `onRuntimeInitialized` callback fires before the next
poll tick, the flag is true while the poll interval is still active —
polling has not halted once the flag is true. -/
theorem c7_counterexample :
    (runLoader (loaderInit false)
        [LoaderEvent.cvLoads, LoaderEvent.runtimeInitialized]).cvReady = true
    ∧ (runLoader (loaderInit false)
        [LoaderEvent.cvLoads, LoaderEvent.runtimeInitialized]).intervalActive = true :=
  ⟨rfl, rfl⟩

/-- Claim C7 as amended: the readiness flag is initialized false (unless the
engine is already loaded at mount, in which case it starts true and no
polling begins), it never transitions back to false under any event, a poll
tick that observes the loaded engine while polling is active sets the flag
and halts polling, and the `onRuntimeInitialized` callback sets the flag
when the engine is loaded but never halts polling — the interval keeps
running until the next poll tick observes readiness. -/
theorem c7_amended_monotonic_readiness :
    (loaderInit false).cvReady = false
    ∧ (loaderInit true).cvReady = true
    ∧ (∀ (s : LoaderState) (e : LoaderEvent),
        s.cvReady = true → (loaderStep s e).cvReady = true)
    ∧ (∀ s : LoaderState, s.cvLoaded = true → s.intervalActive = true →
        loaderStep s LoaderEvent.pollTick
          = { s with cvReady := true, intervalActive := false })
    ∧ (∀ s : LoaderState,
        (loaderStep s LoaderEvent.runtimeInitialized).intervalActive = s.intervalActive)
    ∧ (∀ s : LoaderState, s.cvLoaded = true →
        (loaderStep s LoaderEvent.runtimeInitialized).cvReady = true) := by
  refine ⟨rfl, rfl, ?_, ?_, ?_, ?_⟩
  · intro s e hr
    cases e
    case cvLoads => simpa [loaderStep] using hr
    case pollTick =>
      simp only [loaderStep]
      split_ifs <;> simp [hr]
    case runtimeInitialized =>
      simp only [loaderStep]
      split_ifs <;> simp [hr]
  · intro s hl ha
    simp only [loaderStep]
    rw [if_pos ha, if_pos hl]
  · intro s
    simp only [loaderStep]
    split_ifs <;> rfl
  · intro s hl
    simp only [loaderStep]
    rw [if_pos hl]

/-- Witness for the amended C7 at concrete loader states. -/
theorem c7_witness :
    loaderStep { cvReady := false, intervalActive := true, cvLoaded := true }
        LoaderEvent.pollTick
      = { cvReady := true, intervalActive := false, cvLoaded := true }
    ∧ (loaderStep { cvReady := true, intervalActive := true, cvLoaded := true }
        LoaderEvent.cvLoads).cvReady = true :=
  ⟨c7_amended_monotonic_readiness.2.2.2.1 _ rfl rfl,
   c7_amended_monotonic_readiness.2.2.1 _ LoaderEvent.cvLoads rfl⟩

/-- Claim C9: whenever the clipboard items contain an image-typed item whose
file payload is retrievable, the paste handler decodes the first such image
(scanning all items for an image before any text handling) and never
invokes `getAsString` on any item — a `text/plain` item present alongside
is never examined. -/
theorem c9_image_priority (items : List DataTransferItem)
    (h : ∃ it ∈ items, strContains it.ty "image" = true ∧ it.asFile.isSome = true) :
    (handlePaste (some items)).textRead = false
    ∧ ∃ f, firstImageFile items = some f
        ∧ (handlePaste (some items)).action = PasteAction.decodeImage f := by
  have hs : (firstImageFile items).isSome = true := by
    unfold firstImageFile
    rw [List.findSome?_isSome_iff]
    obtain ⟨it, hmem, hty, hfile⟩ := h
    exact ⟨it, hmem, by rw [hty, if_pos rfl]; exact hfile⟩
  obtain ⟨f, hf⟩ := Option.isSome_iff_exists.mp hs
  have hp : handlePaste (some items)
      = { action := PasteAction.decodeImage f, textRead := false } := by
    simp only [handlePaste]
    rw [hf]
  exact ⟨by rw [hp], f, hf, by rw [hp]⟩

/-- Concrete clipboard contents holding a text item followed by an image
item, used to witness C9. -/
def c9Items : List DataTransferItem :=
  [{ ty := "text/plain", asFile := none, asString := some "hello" },
   { ty := "image/png", asFile := some "IMGDATA", asString := none }]

/-- Witness for C9: with both a text item and an image item present, the
image is decoded and no text is examined. -/
theorem c9_witness :
    (handlePaste (some c9Items)).textRead = false
    ∧ (handlePaste (some c9Items)).action = PasteAction.decodeImage "IMGDATA" := by
  obtain ⟨h1, f, hf, ha⟩ := c9_image_priority c9Items (by decide)
  have hf2 : f = "IMGDATA" := by
    have hconc : firstImageFile c9Items = some "IMGDATA" := by decide
    rw [hconc] at hf
    exact (Option.some_inj.mp hf).symm
  exact ⟨h1, hf2 ▸ ha⟩

end GreenBox
